import Mathlib

/-!
Verification of the invoice/purchase-order reconciliation engine
(`reconciliation.ts`) and its date-normalization helper (`dateUtils.ts`).

Modelling conventions (shallow embedding of the TypeScript source):

* A JavaScript `number` is modelled as `Option ℚ`: `some q` is the finite
  value `q`, `none` is `NaN`.  The infinities are outside the model; no code
  path exercised by the claims can produce them (division is only performed
  under a non-zero guard, and the `"Infinity"` literal of `parseFloat` is
  not used by any input considered here).
* A JavaScript exception never arises in the modelled code (every operation
  used is total), so the `try/catch` wrappers of the source are modelled by
  total functions.
* String operations (`toLowerCase`, `toUpperCase`, `trim`, `includes`,
  `split(/\s+/)`) are modelled by the corresponding ASCII-faithful Lean
  operations on `String` / `List Char`.
* The implementation-defined fallback `new Date(string)` parser of
  `standardizeDate` is a parameter `g : String → Option JSDate` of the
  embedding; theorems quantify over it.
-/

namespace NickRecon

/-- A JavaScript `number`: `some q` is a finite value, `none` is `NaN`. -/
abbrev JSNum := Option ℚ

/-- JS subtraction; `NaN` propagates. -/
def jsSub : JSNum → JSNum → JSNum
  | some a, some b => some (a - b)
  | _, _ => none

/-- JS `Math.abs`; `NaN` propagates. -/
def jsAbs : JSNum → JSNum
  | some a => some |a|
  | none => none

/-- JS multiplication; `NaN` propagates. -/
def jsMul : JSNum → JSNum → JSNum
  | some a, some b => some (a * b)
  | _, _ => none

/-- JS division.  `NaN` propagates.  Division by zero would give an infinity,
which is outside the model; every division in the source is guarded by a
non-zero test on the denominator, so that case is unreachable. -/
def jsDiv : JSNum → JSNum → JSNum
  | some a, some b => if b = 0 then none else some (a / b)
  | _, _ => none

/-- JS strict `<`: any comparison involving `NaN` is `false`. -/
def jsLt : JSNum → JSNum → Bool
  | some a, some b => a < b
  | _, _ => false

/-- The digit value of a decimal digit character. -/
def digitVal (c : Char) : ℕ := c.toNat - ('0').toNat

/-- Decimal value of a list of digit characters. -/
def digitsToNat (ds : List Char) : ℕ := ds.foldl (fun acc c => 10 * acc + digitVal c) 0

/-- Whether `pre` is a prefix of `l` (character lists). -/
def hasPre : List Char → List Char → Bool
  | [], _ => true
  | _ :: _, [] => false
  | a :: as, b :: bs => a == b && hasPre as bs

/-- Whether `needle` occurs as a contiguous sublist of the second argument. -/
def hasSub (needle : List Char) : List Char → Bool
  | [] => hasPre needle []
  | b :: bs => hasPre needle (b :: bs) || hasSub needle bs

/-- JS `hay.includes(needle)` (substring containment; empty needle matches). -/
def includesStr (hay needle : String) : Bool := hasSub needle.toList hay.toList

/-- JS `s.toLowerCase()` as a character-wise map (ASCII case folding; the
inputs of interest carry no locale-sensitive characters). -/
def lowerStr (s : String) : String := String.mk (s.toList.map Char.toLower)

/-- JS `s.toUpperCase()` as a character-wise map (ASCII case folding). -/
def upperStr (s : String) : String := String.mk (s.toList.map Char.toUpper)

/-- JS `s.trim()`: strip leading and trailing whitespace. -/
def jsTrim (s : String) : String :=
  String.mk (((s.toList.dropWhile Char.isWhitespace).reverse.dropWhile Char.isWhitespace).reverse)

/-- Split a character list at every whitespace character, keeping the
(possibly empty) chunks — the pieces JS `split(/\s+/)` produces coincide
with these once empty chunks are filtered out, which every caller does. -/
def splitOnWs (acc : List Char) : List Char → List String
  | [] => [String.mk acc.reverse]
  | c :: rest =>
    if c.isWhitespace then String.mk acc.reverse :: splitOnWs [] rest
    else splitOnWs (c :: acc) rest

/-- JS `s.replace(/\n/g, " ")`: a character-wise replacement of embedded
newlines by spaces. -/
def collapseNewlines (s : String) : String :=
  String.mk (s.toList.map fun c => if c == '\n' then ' ' else c)

/-- JS `a || b` on strings: the empty string is falsy. -/
def jsOrStr (a b : String) : String := if a = "" then b else a

/-- Exponent suffix of a JS float literal: consumed only when at least one
digit follows `e`/`E` and an optional sign, as in `parseFloat`. -/
def parseExpTail (cs : List Char) : ℤ :=
  match cs with
  | '+' :: rest =>
    let ds := rest.takeWhile Char.isDigit
    if ds.isEmpty then 0 else (digitsToNat ds : ℤ)
  | '-' :: rest =>
    let ds := rest.takeWhile Char.isDigit
    if ds.isEmpty then 0 else -(digitsToNat ds : ℤ)
  | _ =>
    let ds := cs.takeWhile Char.isDigit
    if ds.isEmpty then 0 else (digitsToNat ds : ℤ)

/-- JS `parseFloat`: skip leading whitespace, read an optional sign, then the
longest decimal-literal prefix `digits [. digits] [e[odd sign] digits]`;
if no digit is found at all the result is `NaN` (`none`).  The `"Infinity"`
literal is outside the model (see the file header). -/
def parseFloatJS (s : String) : JSNum :=
  let cs := s.toList.dropWhile Char.isWhitespace
  let sgn : ℚ × List Char :=
    match cs with
    | '+' :: rest => (1, rest)
    | '-' :: rest => (-1, rest)
    | _ => (1, cs)
  let intPart := sgn.2.takeWhile Char.isDigit
  let afterInt := sgn.2.dropWhile Char.isDigit
  let fracStep : List Char × List Char :=
    match afterInt with
    | '.' :: rest => (rest.takeWhile Char.isDigit, rest.dropWhile Char.isDigit)
    | _ => ([], afterInt)
  if intPart.isEmpty && fracStep.1.isEmpty then none
  else
    let mantissa : ℚ :=
      (digitsToNat intPart : ℚ) + (digitsToNat fracStep.1 : ℚ) / ((10 : ℚ) ^ fracStep.1.length)
    let expVal : ℤ :=
      match fracStep.2 with
      | 'e' :: rest => parseExpTail rest
      | 'E' :: rest => parseExpTail rest
      | _ => 0
    some (sgn.1 * mantissa * (10 : ℚ) ^ expVal)

/-- A TypeScript `number | string` field value. -/
inductive NumOrStr where
  | num (q : ℚ)
  | str (s : String)
deriving DecidableEq

/-- JS truthiness of a `number | string` value (`0` and the empty string are
falsy; field numbers come from JSON and are never `NaN`). -/
def NumOrStr.truthy : NumOrStr → Bool
  | .num q => !(q == 0)
  | .str s => !(s == "")

/-- JS strict `v !== 0`: a string is never strictly equal to the number `0`. -/
def NumOrStr.neqZero : NumOrStr → Bool
  | .num q => !(q == 0)
  | .str _ => true

/-- `parseFloat(v.toString())`.  For a JS number, `toString` followed by
`parseFloat` is the identity, so the number case returns the value itself. -/
def NumOrStr.parseVal : NumOrStr → JSNum
  | .num q => some q
  | .str s => parseFloatJS s

/-- Truthiness of an optional `number | string` field (absent is falsy). -/
def optTruthy : Option NumOrStr → Bool
  | none => false
  | some v => v.truthy

/-- Strict `x !== 0` for an optional field (`undefined !== 0` is true). -/
def optNeqZero : Option NumOrStr → Bool
  | none => true
  | some v => v.neqZero

/-- `parseFloat(x.toString())` of an optional field; the `none` case is
unreachable in the source (it only occurs under a truthiness guard). -/
def parseValOpt : Option NumOrStr → JSNum
  | none => none
  | some v => v.parseVal

/-!
Date utilities (`dateUtils.ts`).

`new Date(year, monthIndex, day)` is modelled by proleptic-Gregorian calendar
arithmetic with the same out-of-range rollover normalization as ECMAScript
`MakeDay` (the ±275760-year `TimeClip` range is outside the model; every date
constructed here has a four-digit-scale year).
-/

/-- Days since 1970-01-01 of the civil date `(y, m, d)` with `m ∈ 1..12`
(the day `d` may be out of range; the result is linear in `d`). -/
def daysFromCivil (y m d : ℤ) : ℤ :=
  let yAdj := if m ≤ 2 then y - 1 else y
  let era := yAdj.fdiv 400
  let yoe := yAdj - era * 400
  let mp := (m + 9) % 12
  let doy := (153 * mp + 2) / 5 + d - 1
  let doe := yoe * 365 + yoe / 4 - yoe / 100 + doy
  era * 146097 + doe - 719468

/-- Civil date `(year, month 1..12, day 1..31)` of a count of days since
1970-01-01. -/
def civilFromDays (z : ℤ) : ℤ × ℤ × ℤ :=
  let zs := z + 719468
  let era := zs.fdiv 146097
  let doe := zs - era * 146097
  let yoe := (doe - doe / 1460 + doe / 36524 - doe / 146096) / 365
  let y := yoe + era * 400
  let doy := doe - (365 * yoe + yoe / 4 - yoe / 100)
  let mp := (5 * doy + 2) / 153
  let d := doy - (153 * mp + 2) / 5 + 1
  let m := if mp < 10 then mp + 3 else mp - 9
  (if m ≤ 2 then y + 1 else y, m, d)

/-- A JS `Date` at local midnight: the values returned by `getFullYear`,
`getMonth` (0-based) and `getDate`. -/
structure JSDate where
  year : ℤ
  month : ℤ
  day : ℤ
deriving DecidableEq

/-- `new Date(year, monthIndex, day)` including the ECMAScript rollover
normalization of out-of-range month and day. -/
def mkJSDate (year monthIndex day : ℤ) : JSDate :=
  let ym := year * 12 + monthIndex
  let y := ym.fdiv 12
  let m := ym % 12
  let g := daysFromCivil y (m + 1) 1 + (day - 1)
  let c := civilFromDays g
  ⟨c.1, c.2.1 - 1, c.2.2⟩

/-- JS `n.toString().padStart(2, 0-char)` for the (always non-negative) month
and day numbers of `formatDate`. -/
def pad2 (n : ℤ) : String := if 0 ≤ n ∧ n < 10 then "0" ++ toString n else toString n

/-- `formatDate`: format a date as zero-padded `MM/DD/YYYY`. -/
def formatDate (d : JSDate) : String :=
  pad2 (d.month + 1) ++ "/" ++ pad2 d.day ++ "/" ++ toString d.year

/-- Shape of `^\d{4}-\d{2}-\d{2} \d{2}:\d{2}:\d{2}$` minus the digit checks:
the 19-character skeleton with separators at the right positions, returning
the 8 date characters. -/
def tsShape (cs : List Char) : Option (Char × Char × Char × Char × Char × Char × Char × Char) :=
  match cs with
  | [a, b, c, d, s1, e, f, s2, g, h, s3, i, j, s4, k, l, s5, m, n] =>
    if s1 == '-' && s2 == '-' && s3 == ' ' && s4 == ':' && s5 == ':' &&
       i.isDigit && j.isDigit && k.isDigit && l.isDigit && m.isDigit && n.isDigit then
      some (a, b, c, d, e, f, g, h)
    else none
  | _ => none

/-- Shape of `^\d{4}-\d{2}-\d{2}$` minus the digit checks. -/
def ymdShape (cs : List Char) : Option (Char × Char × Char × Char × Char × Char × Char × Char) :=
  match cs with
  | [a, b, c, d, s1, e, f, s2, g, h] =>
    if s1 == '-' && s2 == '-' then some (a, b, c, d, e, f, g, h) else none
  | _ => none

/-- Shape of `^\d{2}/\d{2}/\d{4}$` minus the digit checks. -/
def slash4Shape (cs : List Char) : Option (Char × Char × Char × Char × Char × Char × Char × Char) :=
  match cs with
  | [a, b, s1, c, d, s2, e, f, g, h] =>
    if s1 == '/' && s2 == '/' then some (a, b, c, d, e, f, g, h) else none
  | _ => none

/-- Shape of `^\d{2}/\d{2}/\d{2}$` minus the digit checks. -/
def slash2Shape (cs : List Char) : Option (Char × Char × Char × Char × Char × Char) :=
  match cs with
  | [a, b, s1, c, d, s2, e, f] =>
    if s1 == '/' && s2 == '/' then some (a, b, c, d, e, f) else none
  | _ => none

/-- Shape of `^\d{2}-\d{2}-\d{4}$` minus the digit checks. -/
def dash4Shape (cs : List Char) : Option (Char × Char × Char × Char × Char × Char × Char × Char) :=
  match cs with
  | [a, b, s1, c, d, s2, e, f, g, h] =>
    if s1 == '-' && s2 == '-' then some (a, b, c, d, e, f, g, h) else none
  | _ => none

/-- All-digits test for an extracted character tuple of length 8. -/
def digits8 (t : Char × Char × Char × Char × Char × Char × Char × Char) : Bool :=
  t.1.isDigit && t.2.1.isDigit && t.2.2.1.isDigit && t.2.2.2.1.isDigit &&
  t.2.2.2.2.1.isDigit && t.2.2.2.2.2.1.isDigit && t.2.2.2.2.2.2.1.isDigit && t.2.2.2.2.2.2.2.isDigit

/-- All-digits test for an extracted character tuple of length 6. -/
def digits6 (t : Char × Char × Char × Char × Char × Char) : Bool :=
  t.1.isDigit && t.2.1.isDigit && t.2.2.1.isDigit && t.2.2.2.1.isDigit &&
  t.2.2.2.2.1.isDigit && t.2.2.2.2.2.isDigit

/-- Decimal value of a two-character digit group (JS `Number`). -/
def num2 (a b : Char) : ℤ := (digitsToNat [a, b] : ℤ)

/-- Decimal value of a four-character digit group (JS `Number`). -/
def num4 (a b c d : Char) : ℤ := (digitsToNat [a, b, c, d] : ℤ)

/-- The regex `^\d{4}-\d{2}-\d{2} \d{2}:\d{2}:\d{2}$`. -/
def matchTsRe (s : String) : Bool :=
  match tsShape s.toList with
  | some t => digits8 t
  | none => false

/-- The regex `^\d{4}-\d{2}-\d{2}$`. -/
def matchYmdRe (s : String) : Bool :=
  match ymdShape s.toList with
  | some t => digits8 t
  | none => false

/-- The regex `^\d{2}/\d{2}/\d{4}$` (shared by the `MM/DD/YYYY` and
`DD/MM/YYYY` entries of the format table). -/
def matchSlash4Re (s : String) : Bool :=
  match slash4Shape s.toList with
  | some t => digits8 t
  | none => false

/-- The regex `^\d{2}/\d{2}/\d{2}$`. -/
def matchSlash2Re (s : String) : Bool :=
  match slash2Shape s.toList with
  | some t => digits6 t
  | none => false

/-- The regex `^\d{2}-\d{2}-\d{4}$` (shared by the `MM-DD-YYYY` and
`DD-MM-YYYY` entries of the format table). -/
def matchDash4Re (s : String) : Bool :=
  match dash4Shape s.toList with
  | some t => digits8 t
  | none => false

/-- The format tags of the `dateFormats` table of `standardizeDate`. -/
inductive DateFormat where
  | ymdHms
  | ymd
  | mmddyyyySlash
  | mmddyySlash
  | ddmmyyyySlash
  | mmddyyyyDash
  | ddmmyyyyDash
deriving DecidableEq

/-- `parseDate(dateStr, format)`: split on the separator, convert the groups
with `Number`, and build the date with `new Date(...)`.  It is only invoked on
regex-matched input; on a string of any other shape it returns `none` (in JS
it would build a truthy Invalid Date, but that is unreachable under the regex
guard in `standardizeDate`). -/
def parseDate (s : String) : DateFormat → Option JSDate
  | .ymdHms =>
    (tsShape s.toList).map fun (a, b, c, d, e, f, g, h) =>
      mkJSDate (num4 a b c d) (num2 e f - 1) (num2 g h)
  | .ymd =>
    (ymdShape s.toList).map fun (a, b, c, d, e, f, g, h) =>
      mkJSDate (num4 a b c d) (num2 e f - 1) (num2 g h)
  | .mmddyyyySlash =>
    (slash4Shape s.toList).map fun (a, b, c, d, e, f, g, h) =>
      mkJSDate (num4 e f g h) (num2 a b - 1) (num2 c d)
  | .mmddyySlash =>
    (slash2Shape s.toList).map fun (a, b, c, d, e, f) =>
      let yy := num2 e f
      let fullYear := if yy < 50 then 2000 + yy else 1900 + yy
      mkJSDate fullYear (num2 a b - 1) (num2 c d)
  | .ddmmyyyySlash =>
    (slash4Shape s.toList).map fun (a, b, c, d, e, f, g, h) =>
      mkJSDate (num4 e f g h) (num2 c d - 1) (num2 a b)
  | .mmddyyyyDash =>
    (dash4Shape s.toList).map fun (a, b, c, d, e, f, g, h) =>
      mkJSDate (num4 e f g h) (num2 a b - 1) (num2 c d)
  | .ddmmyyyyDash =>
    (dash4Shape s.toList).map fun (a, b, c, d, e, f, g, h) =>
      mkJSDate (num4 e f g h) (num2 c d - 1) (num2 a b)

/-- The ordered `dateFormats` table of `standardizeDate`: regex test paired
with the format it is parsed under. -/
def dateFormats : List ((String → Bool) × DateFormat) :=
  [(matchTsRe, .ymdHms), (matchYmdRe, .ymd), (matchSlash4Re, .mmddyyyySlash),
   (matchSlash2Re, .mmddyySlash), (matchSlash4Re, .ddmmyyyySlash),
   (matchDash4Re, .mmddyyyyDash), (matchDash4Re, .ddmmyyyyDash)]

/-- The fixed-format loop of `standardizeDate`: the first entry whose regex
matches and whose `parseDate` result is truthy wins. -/
def tryFormatsAux : List ((String → Bool) × DateFormat) → String → Option JSDate
  | [], _ => none
  | (test, fmt) :: rest, t =>
    if test t then
      match parseDate t fmt with
      | some d => some d
      | none => tryFormatsAux rest t
    else tryFormatsAux rest t

/-- The fixed-format stage of `standardizeDate` over the full format table. -/
def tryFormats (t : String) : Option JSDate := tryFormatsAux dateFormats t

/-- The `months` table of `getMonthIndex`. -/
def monthNames : List String :=
  ["January", "February", "March", "April", "May", "June",
   "July", "August", "September", "October", "November", "December"]

/-- The `shortMonths` table of `getMonthIndex`. -/
def shortMonthNames : List String :=
  ["Jan", "Feb", "Mar", "Apr", "May", "Jun",
   "Jul", "Aug", "Sep", "Oct", "Nov", "Dec"]

/-- `getMonthIndex`: case-insensitive lookup in the full month names, then in
the three-letter names; `-1` when both fail (JS `findIndex`). -/
def getMonthIndex (name : String) : ℤ :=
  match monthNames.findIdx? (fun m => lowerStr m == lowerStr name) with
  | some i => (i : ℤ)
  | none =>
    match shortMonthNames.findIdx? (fun m => lowerStr m == lowerStr name) with
    | some i => (i : ℤ)
    | none => -1

/-- The regex `^([A-Za-z]+)\s+(\d{1,2}),\s+(\d{4})$` with its three capture
groups (month name, day, year). -/
def matchMonthNameFull (s : String) : Option (String × ℤ × ℤ) :=
  let cs := s.toList
  let name := cs.takeWhile Char.isAlpha
  let rest1 := cs.dropWhile Char.isAlpha
  if name.isEmpty then none else
  let ws1 := rest1.takeWhile Char.isWhitespace
  let rest2 := rest1.dropWhile Char.isWhitespace
  if ws1.isEmpty then none else
  let dayDs := rest2.takeWhile Char.isDigit
  let rest3 := rest2.dropWhile Char.isDigit
  if dayDs.isEmpty || 2 < dayDs.length then none else
  match rest3 with
  | c :: rest4 =>
    if c == ',' then
      let ws2 := rest4.takeWhile Char.isWhitespace
      let rest5 := rest4.dropWhile Char.isWhitespace
      if ws2.isEmpty then none else
      match rest5 with
      | [y1, y2, y3, y4] =>
        if y1.isDigit && y2.isDigit && y3.isDigit && y4.isDigit then
          some (String.mk name, (digitsToNat dayDs : ℤ), num4 y1 y2 y3 y4)
        else none
      | _ => none
    else none
  | [] => none

/-- The regex `^([A-Za-z]{3})\s+(\d{1,2}),\s+(\d{4})$`: the three-letter
variant of the month-name pattern. -/
def matchMonthNameAbbrev (s : String) : Option (String × ℤ × ℤ) :=
  match matchMonthNameFull s with
  | some (name, day, year) => if name.length == 3 then some (name, day, year) else none
  | none => none

/-- One iteration of the month-name loop body: on a regex match, resolve the
month name; if it resolves, build the date (always valid in the modelled
range), else fall through. -/
def monthNameResult (cap : Option (String × ℤ × ℤ)) : Option JSDate :=
  match cap with
  | some (name, day, year) =>
    let idx := getMonthIndex name
    if idx == -1 then none else some (mkJSDate year idx day)
  | none => none

/-- The month-name stage of `standardizeDate`: the full-name pattern first,
then the three-letter pattern. -/
def tryMonthName (t : String) : Option JSDate :=
  match monthNameResult (matchMonthNameFull t) with
  | some d => some d
  | none => monthNameResult (matchMonthNameAbbrev t)

/-- `standardizeDate(dateStr)`.  The argument `g` models the
implementation-defined fallback `new Date(trimmedDateStr)` parser (`none`
standing for an Invalid Date).  `none` input models `null`/`undefined`. -/
def standardizeDate (g : String → Option JSDate) (dateStr : Option String) : String :=
  match dateStr with
  | none => ""
  | some ds =>
    if ds = "" ∨ ds = "NULL" then ""
    else
      let t := jsTrim ds
      match tryFormats t with
      | some d => formatDate d
      | none =>
        match g t with
        | some d => formatDate d
        | none =>
          match tryMonthName t with
          | some d => formatDate d
          | none => t

/-- `datesEqual`: two empty (unknown) dates are equal; otherwise exact string
equality of the normalized representations. -/
def datesEqual (date1 date2 : String) : Bool :=
  if date1 = "" ∨ date2 = "" then date1 = "" ∧ date2 = ""
  else date1 == date2

/-!
Reconciliation engine (`reconciliation.ts`).
-/

/-- An invoice line item (`LineItem` of `types.ts`).  The `number | string`
numeric fields are `Option NumOrStr` to model the source's defensive optional
access (`item.quantity?.toString()`). -/
structure LineItem where
  productName : String
  quantity : Option NumOrStr
  unitPrice : Option NumOrStr
  totalPrice : Option NumOrStr
  price : Option NumOrStr
  deliveryDate : Option String
deriving DecidableEq

/-- An invoice document (`InvoiceData` of `types.ts`). -/
structure InvoiceData where
  poNumber : String
  invoiceDate : Option String
  lineItems : List LineItem
deriving DecidableEq

/-- A purchase-order ledger row (`PurchaseOrderRecord` of `types.ts`). -/
structure PurchaseOrderRecord where
  PurchaseOrderID : String
  PurchaseQty : NumOrStr
  PurchasePrice : NumOrStr
  DateRequired : String
  PurchaseSupplierItem : String
  PurchaseSupplierDescription : String
deriving DecidableEq

/-- Caller-supplied matching options (`MatchingOptions` of `types.ts`); an
absent field falls back to its default. -/
structure MatchingOptions where
  quantityTolerance : Option ℚ
  priceTolerance : Option ℚ
  minKeywordMatches : Option ℚ
  requireDateMatch : Option Bool
deriving DecidableEq

/-- Options after applying the defaults spread
`{quantityTolerance: 0.01, priceTolerance: 0.01, minKeywordMatches: 3,
requireDateMatch: false, ...options}`. -/
structure ResolvedOptions where
  quantityTolerance : ℚ
  priceTolerance : ℚ
  minKeywordMatches : ℚ
  requireDateMatch : Bool
deriving DecidableEq

/-- Apply the option defaults. -/
def resolveOptions (o : MatchingOptions) : ResolvedOptions :=
  ⟨o.quantityTolerance.getD (1 / 100), o.priceTolerance.getD (1 / 100),
   o.minKeywordMatches.getD 3, o.requireDateMatch.getD false⟩

/-- The `MatchingOptions` value `{}` (a call with every option left out). -/
def noOptions : MatchingOptions := ⟨none, none, none, none⟩

/-- The result-row `Source` tag; the source strings are the literals
`"INVOICE"` and `"PO"` (decorated with an emoji in the TypeScript source). -/
inductive Source where
  | INVOICE
  | PO
deriving DecidableEq

/-- The result-row `Status`; `NO_MATCH` models the string `"NO MATCH"`. -/
inductive Status where
  | MATCH
  | DISCREPANCY
  | NO_MATCH
deriving DecidableEq

/-- One output row (`ReconciliationResult` of `types.ts`).  `poNum`,
`itemDesc`, `qty`, `unitPrice`, `totalPrice`, `date` and `status` model the
fields named `PO #`, `Item/Description`, `Qty`, `Unit Price`, `Total Price`,
`Date` and `Status`; the three optional flags model `_qty_match`,
`_price_match` and `_date_match` (absent on NO MATCH rows). -/
structure ReconciliationResult where
  source : Source
  poNum : String
  itemDesc : String
  qty : JSNum
  unitPrice : JSNum
  totalPrice : JSNum
  date : String
  status : Status
  qty_match : Option Bool
  price_match : Option Bool
  date_match : Option Bool
deriving DecidableEq

/-- Summary counts (`ReconciliationSummary` of `types.ts`); `matchCount`
models the field named `matches` (a reserved word in Lean). -/
structure ReconciliationSummary where
  totalItems : ℕ
  matchCount : ℕ
  discrepancies : ℕ
  noMatches : ℕ
deriving DecidableEq

/-- `parseFloat(field?.toString() || "0")`: an absent field and the empty
string give the string `"0"`; a number round-trips through `toString`; any
other string goes through `parseFloat` (so an unparsable one yields `NaN`). -/
def parseFloatField : Option NumOrStr → JSNum
  | none => some 0
  | some (.num q) => some q
  | some (.str s) => if s = "" then some 0 else parseFloatJS s

/-- Invoice-side quantity: `parseFloat(item.quantity?.toString() || "0")`. -/
def invoiceQtyOf (item : LineItem) : JSNum := parseFloatField item.quantity

/-- Invoice-side unit price (lines 51-60 of `reconciliation.ts`):
`unitPrice` when truthy and `!== 0`; else `totalPrice / invoiceQty` when
`totalPrice` is truthy and `!== 0` and `invoiceQty !== 0`; else the legacy
`parseFloat(item.price?.toString() || "0")`. -/
def invoicePriceOf (item : LineItem) (invoiceQty : JSNum) : JSNum :=
  if optTruthy item.unitPrice && optNeqZero item.unitPrice then
    parseValOpt item.unitPrice
  else if optTruthy item.totalPrice && optNeqZero item.totalPrice &&
          !(invoiceQty == some 0) then
    jsDiv (parseValOpt item.totalPrice) invoiceQty
  else
    parseFloatField item.price

/-- Candidate stage (a): records with a truthy (non-empty) supplier item code
that case-insensitively contains the product name as a substring. -/
def itemCodeCandidates (matchingPOs : List PurchaseOrderRecord) (itemName : String) :
    List PurchaseOrderRecord :=
  matchingPOs.filter fun po =>
    !(po.PurchaseSupplierItem == "") &&
      includesStr (lowerStr po.PurchaseSupplierItem) (lowerStr itemName)

/-- Candidate stage (b): records with a truthy (non-empty) supplier
description that case-insensitively contains the product name as a
substring. -/
def descCandidates (matchingPOs : List PurchaseOrderRecord) (itemName : String) :
    List PurchaseOrderRecord :=
  matchingPOs.filter fun po =>
    !(po.PurchaseSupplierDescription == "") &&
      includesStr (lowerStr po.PurchaseSupplierDescription) (lowerStr itemName)

/-- `itemName.toUpperCase().split(/\s+/).filter(k => k.length > 0)`. -/
def itemKeywordsOf (itemName : String) : List String :=
  (splitOnWs [] (upperStr itemName).toList).filter fun k => k.length > 0

/-- The keyword-hit count of one record: the number of keyword tokens that
occur as substrings of the uppercased description or item code. -/
def keywordMatchCount (itemKeywords : List String) (po : PurchaseOrderRecord) : ℕ :=
  itemKeywords.foldl
    (fun count keyword =>
      count +
        if includesStr (upperStr po.PurchaseSupplierDescription) keyword ||
           includesStr (upperStr po.PurchaseSupplierItem) keyword then 1 else 0)
    0

/-- Candidate stage (c): records whose keyword-hit count reaches
`min(minKeywordMatches, floor(tokenCount / 2))`. -/
def keywordCandidates (matchingPOs : List PurchaseOrderRecord) (itemName : String)
    (minKeywordMatches : ℚ) : List PurchaseOrderRecord :=
  let itemKeywords := itemKeywordsOf itemName
  let minMatches : ℚ := min minKeywordMatches ((itemKeywords.length / 2 : ℕ) : ℚ)
  matchingPOs.filter fun po => minMatches ≤ (keywordMatchCount itemKeywords po : ℚ)

/-- The staged candidate pool (lines 63-102 of `reconciliation.ts`): stage
(a); if empty stage (b); if still empty the keyword stage, taken only when it
is itself non-empty. -/
def poCandidatesOf (matchingPOs : List PurchaseOrderRecord) (itemName : String)
    (opts : ResolvedOptions) : List PurchaseOrderRecord :=
  let first := itemCodeCandidates matchingPOs itemName
  let second := if first.isEmpty then descCandidates matchingPOs itemName else first
  if second.isEmpty then
    let candidateRows := keywordCandidates matchingPOs itemName opts.minKeywordMatches
    if candidateRows.length > 0 then candidateRows else second
  else second

/-- Quantity-within-tolerance test of the tie-break:
`Math.abs(parseFloat(po.PurchaseQty.toString()) - invoiceQty) < quantityTolerance`. -/
def qtyWithin (opts : ResolvedOptions) (invoiceQty : JSNum) (po : PurchaseOrderRecord) : Bool :=
  jsLt (jsAbs (jsSub po.PurchaseQty.parseVal invoiceQty)) (some opts.quantityTolerance)

/-- Price-within-tolerance test of the tie-break. -/
def priceWithin (opts : ResolvedOptions) (invoicePrice : JSNum) (po : PurchaseOrderRecord) : Bool :=
  jsLt (jsAbs (jsSub po.PurchasePrice.parseVal invoicePrice)) (some opts.priceTolerance)

/-- The staged best-candidate tie-break (lines 104-138 of
`reconciliation.ts`): first record with quantity and price both within
tolerance; else first with quantity within; else first with price within;
else the first candidate; `none` only on an empty pool. -/
def bestPOMatch (opts : ResolvedOptions) (poCandidates : List PurchaseOrderRecord)
    (invoiceQty invoicePrice : JSNum) : Option PurchaseOrderRecord :=
  if poCandidates.length > 0 then
    let exactMatches := poCandidates.filter fun po =>
      qtyWithin opts invoiceQty po && priceWithin opts invoicePrice po
    if exactMatches.length > 0 then exactMatches.head?
    else
      let qtyMatches := poCandidates.filter (qtyWithin opts invoiceQty)
      if qtyMatches.length > 0 then qtyMatches.head?
      else
        let priceMatches := poCandidates.filter (priceWithin opts invoicePrice)
        if priceMatches.length > 0 then priceMatches.head?
        else poCandidates.head?
  else none

/-- Per-line-item processing (lines 46-201 of `reconcileInvoiceData`): derive
the invoice-side values, build the candidate pool, pick the best match, and
emit the invoice row plus, on a match, the PO row. -/
def processLineItem (g : String → Option JSDate) (invoiceData : InvoiceData)
    (matchingPOs : List PurchaseOrderRecord) (opts : ResolvedOptions)
    (item : LineItem) : List ReconciliationResult :=
  let itemName := item.productName
  let invoiceQty := invoiceQtyOf item
  let itemDeliveryDate := item.deliveryDate.getD ""
  let invoicePrice := invoicePriceOf item invoiceQty
  let poCandidates := poCandidatesOf matchingPOs itemName opts
  let poMatch := bestPOMatch opts poCandidates invoiceQty invoicePrice
  let poNumber := invoiceData.poNumber
  let itemDate := jsOrStr itemDeliveryDate (invoiceData.invoiceDate.getD "")
  match poMatch with
  | some m =>
    let poQty := m.PurchaseQty.parseVal
    let poPrice := m.PurchasePrice.parseVal
    let qtyMatch := jsLt (jsAbs (jsSub invoiceQty poQty)) (some opts.quantityTolerance)
    let priceMatch := jsLt (jsAbs (jsSub invoicePrice poPrice)) (some opts.priceTolerance)
    let invoiceDateStd := standardizeDate g (some itemDate)
    let poDateStd := standardizeDate g (some m.DateRequired)
    let dateMatch := if opts.requireDateMatch then datesEqual invoiceDateStd poDateStd else true
    let status := if qtyMatch && priceMatch && dateMatch then Status.MATCH else Status.DISCREPANCY
    [⟨.INVOICE, poNumber, itemName, invoiceQty, invoicePrice,
      jsMul invoiceQty invoicePrice, invoiceDateStd, status,
      some qtyMatch, some priceMatch, some dateMatch⟩,
   ⟨.PO, m.PurchaseOrderID,
      m.PurchaseSupplierItem ++ " - " ++ collapseNewlines m.PurchaseSupplierDescription,
      poQty, poPrice, jsMul poQty poPrice, poDateStd, status,
      some qtyMatch, some priceMatch, some dateMatch⟩]
  | none =>
    [⟨.INVOICE, poNumber, itemName, invoiceQty, invoicePrice,
      jsMul invoiceQty invoicePrice, standardizeDate g (some itemDate), .NO_MATCH,
      none, none, none⟩]

/-- `reconcileInvoiceData(invoiceData, poRecords, options)`: resolve the
options, short-circuit on an empty PO set, filter the PO rows by exact PO
number, and process the line items in order. -/
def reconcileInvoiceData (g : String → Option JSDate) (invoiceData : InvoiceData)
    (poRecords : List PurchaseOrderRecord) (options : MatchingOptions) :
    List ReconciliationResult :=
  let opts := resolveOptions options
  if poRecords.isEmpty then []
  else
    let poNumber := invoiceData.poNumber
    let matchingPOs := poRecords.filter fun po => po.PurchaseOrderID == poNumber
    invoiceData.lineItems.flatMap (processLineItem g invoiceData matchingPOs opts)

/-- `generateReconciliationSummary(results)`: count by status over the
INVOICE-source rows only. -/
def generateReconciliationSummary (results : List ReconciliationResult) :
    ReconciliationSummary :=
  let invoiceRows := results.filter fun r => r.source == Source.INVOICE
  ⟨invoiceRows.length,
   (invoiceRows.filter fun r => r.status == Status.MATCH).length,
   (invoiceRows.filter fun r => r.status == Status.DISCREPANCY).length,
   (invoiceRows.filter fun r => r.status == Status.NO_MATCH).length⟩

/-!
Specification-side definitions, written from the wording of the
specification for comparison with the source-derived definitions above.
-/

/-- The candidate stage (a) exactly as the specification words it: the
records whose supplier item code (case-insensitively) contains the product
name as a substring — with no truthiness guard on the item code. -/
def specItemCodeStage (matchingPOs : List PurchaseOrderRecord) (itemName : String) :
    List PurchaseOrderRecord :=
  matchingPOs.filter fun po => includesStr (lowerStr po.PurchaseSupplierItem) (lowerStr itemName)

/-- The candidate stage (b) exactly as the specification words it (no
truthiness guard on the description). -/
def specDescStage (matchingPOs : List PurchaseOrderRecord) (itemName : String) :
    List PurchaseOrderRecord :=
  matchingPOs.filter fun po => includesStr (lowerStr po.PurchaseSupplierDescription) (lowerStr itemName)

/-- The keyword stage as the specification words it: records whose count of
uppercased whitespace-split product-name tokens occurring as substrings of
the description or item code reaches
`min(minKeywordMatches, floor(tokenCount / 2))`. -/
def specKeywordStage (matchingPOs : List PurchaseOrderRecord) (itemName : String)
    (minKeywordMatches : ℚ) : List PurchaseOrderRecord :=
  let tokens := itemKeywordsOf itemName
  matchingPOs.filter fun po =>
    min minKeywordMatches ((tokens.length / 2 : ℕ) : ℚ) ≤ (keywordMatchCount tokens po : ℚ)

/-- Strictly staged selection: the first non-empty stage wins; when the first
two stages are empty the pool is the third stage (possibly empty). -/
def stagedPool (first second third : List PurchaseOrderRecord) : List PurchaseOrderRecord :=
  if first ≠ [] then first else if second ≠ [] then second else third

/-- The candidate pool exactly as the specification words it (both substring
stages without the source's truthiness guards). -/
def specPoolAsClaimed (matchingPOs : List PurchaseOrderRecord) (itemName : String)
    (minKeywordMatches : ℚ) : List PurchaseOrderRecord :=
  stagedPool (specItemCodeStage matchingPOs itemName) (specDescStage matchingPOs itemName)
    (specKeywordStage matchingPOs itemName minKeywordMatches)

/-- The candidate pool with only stage (a) corrected to carry the source's
non-empty guard, stage (b) still as the specification words it. -/
def specPoolGuardedA (matchingPOs : List PurchaseOrderRecord) (itemName : String)
    (minKeywordMatches : ℚ) : List PurchaseOrderRecord :=
  stagedPool (itemCodeCandidates matchingPOs itemName) (specDescStage matchingPOs itemName)
    (specKeywordStage matchingPOs itemName minKeywordMatches)

/-- The candidate pool as amended: both substring stages restricted to
records with a non-empty matched field, the keyword stage as worded. -/
def specPoolAmended (matchingPOs : List PurchaseOrderRecord) (itemName : String)
    (minKeywordMatches : ℚ) : List PurchaseOrderRecord :=
  stagedPool (itemCodeCandidates matchingPOs itemName) (descCandidates matchingPOs itemName)
    (specKeywordStage matchingPOs itemName minKeywordMatches)

/-- The tie-break exactly as the specification words it: the first candidate
with quantity and price both within tolerance; else the first with only
quantity within tolerance; else the first with only price within tolerance;
else the first candidate unconditionally. -/
def specBestCandidate (opts : ResolvedOptions) (pool : List PurchaseOrderRecord)
    (invoiceQty invoicePrice : JSNum) : Option PurchaseOrderRecord :=
  match pool.find? fun po => qtyWithin opts invoiceQty po && priceWithin opts invoicePrice po with
  | some m => some m
  | none =>
    match pool.find? fun po => qtyWithin opts invoiceQty po && !priceWithin opts invoicePrice po with
    | some m => some m
    | none =>
      match pool.find? fun po => priceWithin opts invoicePrice po && !qtyWithin opts invoiceQty po with
      | some m => some m
      | none => pool.head?

/-- The format table with the two dead branches (`DD/MM/YYYY`, `DD-MM-YYYY`)
removed, as the specification describes them to be unreachable. -/
def dateFormatsLive : List ((String → Bool) × DateFormat) :=
  [(matchTsRe, .ymdHms), (matchYmdRe, .ymd), (matchSlash4Re, .mmddyyyySlash),
   (matchSlash2Re, .mmddyySlash), (matchDash4Re, .mmddyyyyDash)]

/-- The fixed-format stage over the dead-branch-free table. -/
def tryFormatsLive (t : String) : Option JSDate := tryFormatsAux dateFormatsLive t

/-- `standardizeDate` with the dead-branch-free format table. -/
def standardizeDateLive (g : String → Option JSDate) (dateStr : Option String) : String :=
  match dateStr with
  | none => ""
  | some ds =>
    if ds = "" ∨ ds = "NULL" then ""
    else
      let t := jsTrim ds
      match tryFormatsLive t with
      | some d => formatDate d
      | none =>
        match g t with
        | some d => formatDate d
        | none =>
          match tryMonthName t with
          | some d => formatDate d
          | none => t

/-!
Helper lemmas.
-/

/-- The head of a filtered list is the first element satisfying the
predicate. -/
theorem head?_filter_eq_find? {α : Type} (p : α → Bool) (l : List α) :
    (l.filter p).head? = l.find? p := by
  induction l with
  | nil => rfl
  | cons a t ih =>
    by_cases h : p a = true <;> simp [List.filter_cons, List.find?_cons, h, ih]

/-- A list filters to nil exactly when no element satisfies the predicate. -/
theorem all_false_of_filter_eq_nil {α : Type} {p : α → Bool} {l : List α}
    (h : l.filter p = []) : ∀ x ∈ l, p x = false := by
  intro x hx
  by_contra hpx
  have hmem : x ∈ l.filter p := List.mem_filter.2 ⟨hx, by

    revert hpx
    cases p x <;> simp⟩
  rw [h] at hmem
  exact absurd hmem (List.not_mem_nil x)

/-- `find?` ignores a conjunct that is false whenever the predicate holds. -/
theorem find?_and_not {α : Type} (p q : α → Bool) (l : List α)
    (h : ∀ x ∈ l, p x = true → q x = false) :
    l.find? p = l.find? fun x => p x && !q x := by
  induction l with
  | nil => rfl
  | cons a t ih =>
    have ha := h a (List.mem_cons_self a t)
    by_cases hp : p a = true
    · simp [List.find?_cons, hp, ha hp]
    · simp [List.find?_cons, hp]
      exact ih fun x hx => h x (List.mem_cons_of_mem a hx)

/-- `find?` of an everywhere-false predicate is `none`. -/
theorem find?_eq_none_of_all_false {α : Type} {p : α → Bool} {l : List α}
    (h : ∀ x ∈ l, p x = false) : l.find? p = none := by
  rw [List.find?_eq_none]
  intro x hx
  simp [h x hx]

/-- A non-empty list has a head. -/
theorem head?_isSome_of_ne_nil {α : Type} {l : List α} (h : l ≠ []) :
    l.head?.isSome = true := by
  cases l with
  | nil => exact absurd rfl h
  | cons a t => rfl

/-- Every result row carries exactly one of the three statuses, so the three
status counts partition any row list. -/
theorem status_counts_partition (l : List ReconciliationResult) :
    (l.filter fun r => r.status == Status.MATCH).length +
      (l.filter fun r => r.status == Status.DISCREPANCY).length +
      (l.filter fun r => r.status == Status.NO_MATCH).length = l.length := by
  induction l with
  | nil => rfl
  | cons a t ih =>
    cases h : a.status <;> simp [List.filter_cons, h] <;> omega

/-!
Claim theorems.

Concrete evaluation of rational arithmetic by `decide` needs the Batteries
rational operations to be unfoldable; they are sound plain definitions,
merely tagged irreducible for elaboration performance, so they are re-opened
locally for this section.
-/

section ClaimTheorems

attribute [local semireducible] Rat.mul Rat.add Rat.sub Rat.inv

/-- C9: with an empty purchase-order record list, `reconcileInvoiceData`
returns the empty result list for every invoice document and every options
value — no rows of any kind are emitted. -/
theorem c9_empty_po_short_circuit (g : String → Option JSDate)
    (invoiceData : InvoiceData) (options : MatchingOptions) :
    reconcileInvoiceData g invoiceData [] options = [] := rfl

/-- C5: the summary derives every count from INVOICE-source rows only (it is
unchanged by restricting to them), `totalItems` is the number of
INVOICE-source rows, and the three status counts add up to `totalItems`. -/
theorem c5_summary_counts (results : List ReconciliationResult) :
    (generateReconciliationSummary results).totalItems =
      (results.filter fun r => r.source == Source.INVOICE).length ∧
    (generateReconciliationSummary results).matchCount +
        (generateReconciliationSummary results).discrepancies +
        (generateReconciliationSummary results).noMatches =
      (generateReconciliationSummary results).totalItems ∧
    generateReconciliationSummary results =
      generateReconciliationSummary (results.filter fun r => r.source == Source.INVOICE) := by
  refine ⟨rfl, status_counts_partition _, ?_⟩
  simp [generateReconciliationSummary, List.filter_filter]

/-- C6: `standardizeDate` is total and never raises: `null`/`undefined`, the
empty string and the literal `"NULL"` give the empty string; on any other
string for which the fixed patterns, the generic date parser and the
month-name patterns all fail, it returns the trimmed original string
unchanged (the source's `try/catch` is vacuous in this total model). -/
theorem c6_standardizeDate_total (g : String → Option JSDate) (s : String) :
    standardizeDate g none = "" ∧
    standardizeDate g (some ("")) = "" ∧
    standardizeDate g (some ("NULL")) = "" ∧
    (s ≠ "" → s ≠ "NULL" → tryFormats (jsTrim s) = none → g (jsTrim s) = none →
      tryMonthName (jsTrim s) = none → standardizeDate g (some s) = jsTrim s) := by
  refine ⟨rfl, rfl, rfl, fun h1 h2 h3 h4 h5 => ?_⟩
  simp [standardizeDate, h1, h2, h3, h4, h5]

/-- C6 witness: the input string `hello`, with an always-failing generic
parser, exercises the all-strategies-fail branch. -/
theorem c6_standardizeDate_total_witness :
    ("hello" : String) ≠ "" ∧ ("hello" : String) ≠ "NULL" ∧
    tryFormats (jsTrim ("hello")) = none ∧
    tryMonthName (jsTrim ("hello")) = none ∧
    standardizeDate (fun _ => none) (some ("hello")) = jsTrim ("hello") :=
  ⟨by decide, by decide, by decide, by decide,
   (c6_standardizeDate_total (fun _ => none) ("hello")).2.2.2
     (by decide) (by decide) (by decide) rfl (by decide)⟩

/-- C8 counterexample: the quantity string `abc` has no numeric prefix, and
the code yields `NaN` (`none`), not the claimed `0`; and the unit-price
string `0` passes the JS truthiness test `unitPrice && unitPrice !== 0`, so
the code uses it (parsing to `0`) instead of deriving
`totalPrice / quantity = 7` as the claimed non-zero-unit-price priority
would. -/
theorem c8_counterexample :
    invoiceQtyOf ⟨("X"), some (.str ("abc")), none, some (.num 7), none, none⟩ = none ∧
    invoiceQtyOf ⟨("X"), some (.str ("abc")), none, some (.num 7), none, none⟩ ≠ some 0 ∧
    invoicePriceOf ⟨("X"), some (.num 1), some (.str ("0")), some (.num 7), none, none⟩
        (invoiceQtyOf ⟨("X"), some (.num 1), some (.str ("0")), some (.num 7), none, none⟩) =
      some 0 ∧
    invoicePriceOf ⟨("X"), some (.num 1), some (.str ("0")), some (.num 7), none, none⟩
        (invoiceQtyOf ⟨("X"), some (.num 1), some (.str ("0")), some (.num 7), none, none⟩) ≠
      some 7 := by
  decide

/-- C8 (amended): the invoice-side quantity is
`parseFloat(quantity?.toString() || "0")` — absent or empty-string quantity
parses to 0, a numeric field to itself, and any other string through
`parseFloat`, an unparsable one yielding `NaN` (never raising); the unit
price is: the parsed unit-price field when that field is truthy and
`!== 0` (for a string this means non-empty, so the string `0` qualifies);
else `totalPrice / quantity` when the total-price field is truthy and
`!== 0` and the parsed quantity is `!== 0`; else the legacy `price` field
under the same parse-or-0 rule. -/
theorem c8_amended (item : LineItem) (q : ℚ) (s : String) (invoiceQty : JSNum) :
    invoiceQtyOf item = parseFloatField item.quantity ∧
    parseFloatField none = some 0 ∧
    parseFloatField (some (.str (""))) = some 0 ∧
    parseFloatField (some (.num q)) = some q ∧
    (s ≠ "" → parseFloatField (some (.str s)) = parseFloatJS s) ∧
    ((optTruthy item.unitPrice && optNeqZero item.unitPrice) = true →
      invoicePriceOf item invoiceQty = parseValOpt item.unitPrice) ∧
    ((optTruthy item.unitPrice && optNeqZero item.unitPrice) = false →
      (optTruthy item.totalPrice && optNeqZero item.totalPrice &&
          !(invoiceQty == some 0)) = true →
      invoicePriceOf item invoiceQty = jsDiv (parseValOpt item.totalPrice) invoiceQty) ∧
    ((optTruthy item.unitPrice && optNeqZero item.unitPrice) = false →
      (optTruthy item.totalPrice && optNeqZero item.totalPrice &&
          !(invoiceQty == some 0)) = false →
      invoicePriceOf item invoiceQty = parseFloatField item.price) := by
  refine ⟨rfl, rfl, rfl, rfl, fun hs => ?_, fun h1 => ?_, fun h1 h2 => ?_, fun h1 h2 => ?_⟩
  · simp [parseFloatField, hs]
  · simp [invoicePriceOf, h1]
  · simp [invoicePriceOf, h1, h2]
  · simp [invoicePriceOf, h1, h2]

/-- C8 witness: a line item with a numeric unit price takes the first
price branch, and the string `abc` exercises the parseFloat case. -/
theorem c8_amended_witness :
    ("abc" : String) ≠ "" ∧
    (optTruthy (some (NumOrStr.num 5)) && optNeqZero (some (NumOrStr.num 5))) = true ∧
    parseFloatField (some (.str ("abc"))) = parseFloatJS ("abc") ∧
    invoicePriceOf ⟨("X"), some (.num 10), some (.num 5), none, none, none⟩ (some 10) =
      parseValOpt (some (NumOrStr.num 5)) :=
  ⟨by decide, by decide,
   (c8_amended ⟨("X"), some (.num 10), some (.num 5), none, none, none⟩ 5 ("abc")
       (some 10)).2.2.2.2.1 (by decide),
   (c8_amended ⟨("X"), some (.num 10), some (.num 5), none, none, none⟩ 5 ("abc")
       (some 10)).2.2.2.2.2.1 (by decide)⟩

/-- C1 counterexample: with an empty product name, every record is a
stage-(a) candidate in the claim's unguarded reading (every supplier item
code contains the empty string), but the source's truthiness guard drops
records with an empty item code, so the pool differs from the claimed
stage-(a) set; a second input shows the same guard is observable on the
description stage once stage (a) is corrected. -/
theorem c1_counterexample :
    poCandidatesOf
        [⟨("PO1"), .num 1, .num 1, (""), ("A"), ("")⟩,
         ⟨("PO1"), .num 1, .num 1, (""), (""), ("")⟩]
        ("") (resolveOptions noOptions) ≠
      specPoolAsClaimed
        [⟨("PO1"), .num 1, .num 1, (""), ("A"), ("")⟩,
         ⟨("PO1"), .num 1, .num 1, (""), (""), ("")⟩]
        ("") (resolveOptions noOptions).minKeywordMatches ∧
    poCandidatesOf
        [⟨("PO1"), .num 1, .num 1, (""), (""), ("B")⟩,
         ⟨("PO1"), .num 1, .num 1, (""), (""), ("")⟩]
        ("") (resolveOptions noOptions) ≠
      specPoolGuardedA
        [⟨("PO1"), .num 1, .num 1, (""), (""), ("B")⟩,
         ⟨("PO1"), .num 1, .num 1, (""), (""), ("")⟩]
        ("") (resolveOptions noOptions).minKeywordMatches := by
  decide

/-- C1 (amended): the candidate pool is computed by strictly staged
selection in which stage (a) takes the records with a NON-EMPTY supplier
item code case-insensitively containing the product name; only if stage (a)
is empty, stage (b) takes those with a NON-EMPTY supplier description
containing it; only if stage (b) is empty, stage (c) takes the records whose
keyword-token hit count reaches `min(minKeywordMatches, floor(tokenCount/2))`;
and whenever the stage-(a) set is non-empty the pool equals exactly that
set. -/
theorem c1_candidate_pool_staged (matchingPOs : List PurchaseOrderRecord)
    (itemName : String) (opts : ResolvedOptions) :
    poCandidatesOf matchingPOs itemName opts =
      specPoolAmended matchingPOs itemName opts.minKeywordMatches ∧
    (itemCodeCandidates matchingPOs itemName ≠ [] →
      poCandidatesOf matchingPOs itemName opts = itemCodeCandidates matchingPOs itemName) := by
  have hkw : keywordCandidates matchingPOs itemName opts.minKeywordMatches =
      specKeywordStage matchingPOs itemName opts.minKeywordMatches := rfl
  have hmain : poCandidatesOf matchingPOs itemName opts =
      specPoolAmended matchingPOs itemName opts.minKeywordMatches := by
    by_cases h1 : itemCodeCandidates matchingPOs itemName = []
    · by_cases h2 : descCandidates matchingPOs itemName = []
      · cases h3 : specKeywordStage matchingPOs itemName opts.minKeywordMatches with
        | nil => simp [poCandidatesOf, specPoolAmended, stagedPool, h1, h2, hkw, h3]
        | cons a t => simp [poCandidatesOf, specPoolAmended, stagedPool, h1, h2, hkw, h3]
      · simp [poCandidatesOf, specPoolAmended, stagedPool, h1, h2]
    · simp [poCandidatesOf, specPoolAmended, stagedPool, h1]
  refine ⟨hmain, fun h1 => ?_⟩
  simp [poCandidatesOf, h1]

/-- C1 witness: a pool with a non-empty stage (a). -/
theorem c1_candidate_pool_staged_witness :
    itemCodeCandidates [⟨("PO1"), .num 1, .num 1, (""), ("WIDGET-A"), ("d")⟩]
        ("Widget") ≠ [] ∧
    poCandidatesOf [⟨("PO1"), .num 1, .num 1, (""), ("WIDGET-A"), ("d")⟩]
        ("Widget") (resolveOptions noOptions) =
      itemCodeCandidates [⟨("PO1"), .num 1, .num 1, (""), ("WIDGET-A"), ("d")⟩]
        ("Widget") :=
  ⟨by decide,
   (c1_candidate_pool_staged [⟨("PO1"), .num 1, .num 1, (""), ("WIDGET-A"), ("d")⟩]
       ("Widget") (resolveOptions noOptions)).2 (by decide)⟩

/-- C2: on a non-empty candidate pool the tie-break always selects a match,
and the selection equals the staged first-satisfied-rule policy: the first
candidate with quantity and price both within tolerance, else the first with
only quantity within tolerance, else the first with only price within
tolerance, else the first candidate of the pool. -/
theorem c2_tie_break (opts : ResolvedOptions) (pool : List PurchaseOrderRecord)
    (invoiceQty invoicePrice : JSNum) :
    bestPOMatch opts pool invoiceQty invoicePrice =
      specBestCandidate opts pool invoiceQty invoicePrice ∧
    (pool ≠ [] → (bestPOMatch opts pool invoiceQty invoicePrice).isSome = true) := by
  have hmain : bestPOMatch opts pool invoiceQty invoicePrice =
      specBestCandidate opts pool invoiceQty invoicePrice := by
    cases pool with
    | nil => rfl
    | cons c0 rest =>
      set pool := c0 :: rest with hpool
      have hlen : pool.length > 0 := by simp [hpool]
      by_cases hb : pool.filter (fun po =>
          qtyWithin opts invoiceQty po && priceWithin opts invoicePrice po) = []
      · have hfb : pool.find? (fun po =>
            qtyWithin opts invoiceQty po && priceWithin opts invoicePrice po) = none := by
          rw [← head?_filter_eq_find?, hb]; rfl
        have hball := all_false_of_filter_eq_nil hb
        by_cases hq : pool.filter (qtyWithin opts invoiceQty) = []
        · have hqall := all_false_of_filter_eq_nil hq
          have hfq : pool.find? (fun po =>
              qtyWithin opts invoiceQty po && !priceWithin opts invoicePrice po) = none := by
            refine find?_eq_none_of_all_false fun x hx => ?_
            simp [hqall x hx]
          by_cases hp : pool.filter (priceWithin opts invoicePrice) = []
          · have hpall := all_false_of_filter_eq_nil hp
            have hfp : pool.find? (fun po =>
                priceWithin opts invoicePrice po && !qtyWithin opts invoiceQty po) = none := by
              refine find?_eq_none_of_all_false fun x hx => ?_
              simp [hpall x hx]
            simp [bestPOMatch, specBestCandidate, hlen, hb, hq, hp, hfb, hfq, hfp]
          · have hfp : pool.find? (fun po =>
                priceWithin opts invoicePrice po && !qtyWithin opts invoiceQty po) =
                pool.find? (priceWithin opts invoicePrice) := by
              rw [find?_and_not (priceWithin opts invoicePrice) (qtyWithin opts invoiceQty)
                pool (fun x hx _ => hqall x hx)]
            have hsomep : (pool.filter (priceWithin opts invoicePrice)).head?.isSome = true :=
              head?_isSome_of_ne_nil hp
            rw [head?_filter_eq_find?] at hsomep
            obtain ⟨m, hm⟩ := Option.isSome_iff_exists.1 hsomep
            simp [bestPOMatch, specBestCandidate, hlen, hb, hq, hp, hfb, hfq, hfp,
              head?_filter_eq_find?, hm]
        · have hfq : pool.find? (fun po =>
              qtyWithin opts invoiceQty po && !priceWithin opts invoicePrice po) =
              pool.find? (qtyWithin opts invoiceQty) := by
            rw [find?_and_not (qtyWithin opts invoiceQty) (priceWithin opts invoicePrice)
              pool (fun x hx hqx => ?_)]
            have := hball x hx
            revert this
            simp [hqx]
          have hsomeq : (pool.filter (qtyWithin opts invoiceQty)).head?.isSome = true :=
            head?_isSome_of_ne_nil hq
          rw [head?_filter_eq_find?] at hsomeq
          obtain ⟨m, hm⟩ := Option.isSome_iff_exists.1 hsomeq
          simp [bestPOMatch, specBestCandidate, hlen, hb, hq, hfb, hfq,
            head?_filter_eq_find?, hm]
      · have hsomeb : (pool.filter (fun po =>
            qtyWithin opts invoiceQty po && priceWithin opts invoicePrice po)).head?.isSome =
            true := head?_isSome_of_ne_nil hb
        rw [head?_filter_eq_find?] at hsomeb
        obtain ⟨m, hm⟩ := Option.isSome_iff_exists.1 hsomeb
        simp [bestPOMatch, specBestCandidate, hlen, hb, head?_filter_eq_find?, hm]
  refine ⟨hmain, fun hne => ?_⟩
  rw [hmain]
  cases pool with
  | nil => exact absurd rfl hne
  | cons c0 rest =>
    unfold specBestCandidate
    cases h1 : (c0 :: rest).find? (fun po =>
        qtyWithin opts invoiceQty po && priceWithin opts invoicePrice po) with
    | some m => rfl
    | none =>
      cases h2 : (c0 :: rest).find? (fun po =>
          qtyWithin opts invoiceQty po && !priceWithin opts invoicePrice po) with
      | some m => rfl
      | none =>
        cases h3 : (c0 :: rest).find? (fun po =>
            priceWithin opts invoicePrice po && !qtyWithin opts invoiceQty po) with
        | some m => rfl
        | none => rfl

/-- C2 witness: a two-element pool in which only the second candidate is
within both tolerances. -/
theorem c2_tie_break_witness :
    ([⟨("PO1"), .num 9, .num 9, (""), ("A"), ("")⟩,
      ⟨("PO1"), .num 10, .num 5, (""), ("B"), ("")⟩] :
        List PurchaseOrderRecord) ≠ [] ∧
    (bestPOMatch (resolveOptions noOptions)
        [⟨("PO1"), .num 9, .num 9, (""), ("A"), ("")⟩,
         ⟨("PO1"), .num 10, .num 5, (""), ("B"), ("")⟩]
        (some 10) (some 5)).isSome = true :=
  ⟨by decide,
   (c2_tie_break (resolveOptions noOptions)
       [⟨("PO1"), .num 9, .num 9, (""), ("A"), ("")⟩,
        ⟨("PO1"), .num 10, .num 5, (""), ("B"), ("")⟩]
       (some 10) (some 5)).2 (by decide)⟩

/-- A digit character is never equal to a non-digit separator character. -/
theorem ne_sep_of_isDigit {c sep : Char} (h : c.isDigit = true)
    (hsep : sep.isDigit = false) : c ≠ sep := by
  intro hce
  rw [hce, hsep] at h
  exact Bool.noConfusion h

/-- A regex-matched timestamp string always parses under its format. -/
theorem parseDate_ts_isSome {t : String} (h : matchTsRe t = true) :
    (parseDate t .ymdHms).isSome = true := by
  unfold matchTsRe at h
  simp only [String.toList] at h
  cases hs : tsShape t.data with
  | none => simp [hs] at h
  | some x => simp [parseDate, String.toList, hs]

/-- A regex-matched `YYYY-MM-DD` string always parses under its format. -/
theorem parseDate_ymd_isSome {t : String} (h : matchYmdRe t = true) :
    (parseDate t .ymd).isSome = true := by
  unfold matchYmdRe at h
  simp only [String.toList] at h
  cases hs : ymdShape t.data with
  | none => simp [hs] at h
  | some x => simp [parseDate, String.toList, hs]

/-- A regex-matched `\d{2}/\d{2}/\d{4}` string always parses under the
month-first slash format. -/
theorem parseDate_slash4_isSome {t : String} (h : matchSlash4Re t = true) :
    (parseDate t .mmddyyyySlash).isSome = true := by
  unfold matchSlash4Re at h
  simp only [String.toList] at h
  cases hs : slash4Shape t.data with
  | none => simp [hs] at h
  | some x => simp [parseDate, String.toList, hs]

/-- A regex-matched `\d{2}/\d{2}/\d{2}` string always parses under its
format. -/
theorem parseDate_slash2_isSome {t : String} (h : matchSlash2Re t = true) :
    (parseDate t .mmddyySlash).isSome = true := by
  unfold matchSlash2Re at h
  simp only [String.toList] at h
  cases hs : slash2Shape t.data with
  | none => simp [hs] at h
  | some x => simp [parseDate, String.toList, hs]

/-- A regex-matched `\d{2}-\d{2}-\d{4}` string always parses under the
month-first dash format. -/
theorem parseDate_dash4_isSome {t : String} (h : matchDash4Re t = true) :
    (parseDate t .mmddyyyyDash).isSome = true := by
  unfold matchDash4Re at h
  simp only [String.toList] at h
  cases hs : dash4Shape t.data with
  | none => simp [hs] at h
  | some x => simp [parseDate, String.toList, hs]

/-- The fixed-format loop never reaches the day-first branches: dropping
them from the table changes nothing. -/
theorem tryFormats_eq_tryFormatsLive (t : String) : tryFormats t = tryFormatsLive t := by
  unfold tryFormats tryFormatsLive dateFormats dateFormatsLive
  by_cases h1 : matchTsRe t = true
  · obtain ⟨d, hd⟩ := Option.isSome_iff_exists.1 (parseDate_ts_isSome h1)
    simp [tryFormatsAux, h1, hd]
  · by_cases h2 : matchYmdRe t = true
    · obtain ⟨d, hd⟩ := Option.isSome_iff_exists.1 (parseDate_ymd_isSome h2)
      simp [tryFormatsAux, h1, h2, hd]
    · by_cases h3 : matchSlash4Re t = true
      · obtain ⟨d, hd⟩ := Option.isSome_iff_exists.1 (parseDate_slash4_isSome h3)
        simp [tryFormatsAux, h1, h2, h3, hd]
      · by_cases h4 : matchSlash2Re t = true
        · obtain ⟨d, hd⟩ := Option.isSome_iff_exists.1 (parseDate_slash2_isSome h4)
          simp [tryFormatsAux, h1, h2, h3, h4, hd]
        · by_cases h5 : matchDash4Re t = true
          · obtain ⟨d, hd⟩ := Option.isSome_iff_exists.1 (parseDate_dash4_isSome h5)
            simp [tryFormatsAux, h1, h2, h3, h4, h5, hd]
          · simp [tryFormatsAux, h1, h2, h3, h4, h5]

/-- C7: the day-first branches of the format table are unreachable —
`standardizeDate` is unchanged when they are removed — and every trimmed
input of shape two digits, slash, two digits, slash, four digits is parsed
with the FIRST field as month (and likewise for the hyphen shape). -/
theorem c7_month_first_wins (g : String → Option JSDate) (ds : Option String)
    (m1 m2 d1 d2 y1 y2 y3 y4 : Char) :
    standardizeDate g ds = standardizeDateLive g ds ∧
    (m1.isDigit = true ∧ m2.isDigit = true ∧ d1.isDigit = true ∧ d2.isDigit = true ∧
        y1.isDigit = true ∧ y2.isDigit = true ∧ y3.isDigit = true ∧ y4.isDigit = true →
      tryFormats (String.mk [m1, m2, '/', d1, d2, '/', y1, y2, y3, y4]) =
          some (mkJSDate (num4 y1 y2 y3 y4) (num2 m1 m2 - 1) (num2 d1 d2)) ∧
      tryFormats (String.mk [m1, m2, '-', d1, d2, '-', y1, y2, y3, y4]) =
          some (mkJSDate (num4 y1 y2 y3 y4) (num2 m1 m2 - 1) (num2 d1 d2))) := by
  constructor
  · cases ds with
    | none => rfl
    | some s =>
      by_cases hnull : s = "" ∨ s = "NULL"
      · simp [standardizeDate, standardizeDateLive, hnull]
      · simp [standardizeDate, standardizeDateLive, hnull, tryFormats_eq_tryFormatsLive]
  · rintro ⟨hm1, hm2, hd1, hd2, hy1, hy2, hy3, hy4⟩
    have hdash : d2 ≠ '-' := ne_sep_of_isDigit hd2 (by decide)
    constructor
    · have e1 : matchTsRe (String.mk [m1, m2, '/', d1, d2, '/', y1, y2, y3, y4]) = false := rfl
      have e2 : matchYmdRe (String.mk [m1, m2, '/', d1, d2, '/', y1, y2, y3, y4]) = false := by
        simp [matchYmdRe, ymdShape, String.toList, hdash]
      have e3sh : slash4Shape [m1, m2, '/', d1, d2, '/', y1, y2, y3, y4] =
          some (m1, m2, d1, d2, y1, y2, y3, y4) := rfl
      have e3 : matchSlash4Re (String.mk [m1, m2, '/', d1, d2, '/', y1, y2, y3, y4]) = true := by
        simp [matchSlash4Re, String.toList, e3sh, digits8, hm1, hm2, hd1, hd2, hy1, hy2, hy3,
          hy4]
      have e3p : parseDate (String.mk [m1, m2, '/', d1, d2, '/', y1, y2, y3, y4])
          .mmddyyyySlash =
          some (mkJSDate (num4 y1 y2 y3 y4) (num2 m1 m2 - 1) (num2 d1 d2)) := by
        simp [parseDate, String.toList, e3sh]
      simp [tryFormats, dateFormats, tryFormatsAux, e1, e2, e3, e3p]
    · have e1 : matchTsRe (String.mk [m1, m2, '-', d1, d2, '-', y1, y2, y3, y4]) = false := rfl
      have e2 : matchYmdRe (String.mk [m1, m2, '-', d1, d2, '-', y1, y2, y3, y4]) = false := by
        simp [matchYmdRe, ymdShape, String.toList, hdash]
      have e3 : matchSlash4Re (String.mk [m1, m2, '-', d1, d2, '-', y1, y2, y3, y4]) = false :=
        rfl
      have e4 : matchSlash2Re (String.mk [m1, m2, '-', d1, d2, '-', y1, y2, y3, y4]) = false :=
        rfl
      have e5sh : dash4Shape [m1, m2, '-', d1, d2, '-', y1, y2, y3, y4] =
          some (m1, m2, d1, d2, y1, y2, y3, y4) := rfl
      have e5 : matchDash4Re (String.mk [m1, m2, '-', d1, d2, '-', y1, y2, y3, y4]) = true := by
        simp [matchDash4Re, String.toList, e5sh, digits8, hm1, hm2, hd1, hd2, hy1, hy2, hy3,
          hy4]
      have e5p : parseDate (String.mk [m1, m2, '-', d1, d2, '-', y1, y2, y3, y4])
          .mmddyyyyDash =
          some (mkJSDate (num4 y1 y2 y3 y4) (num2 m1 m2 - 1) (num2 d1 d2)) := by
        simp [parseDate, String.toList, e5sh]
      simp [tryFormats, dateFormats, tryFormatsAux, e1, e2, e3, e4, e5, e5p]

/-- C7 witness: the inputs `04/07/2025` and `04-07-2025` are parsed
month-first. -/
theorem c7_month_first_wins_witness :
    (('0').isDigit = true ∧ ('4').isDigit = true ∧ ('0').isDigit = true ∧
        ('7').isDigit = true ∧ ('2').isDigit = true ∧ ('0').isDigit = true ∧
        ('2').isDigit = true ∧ ('5').isDigit = true) ∧
    tryFormats (String.mk ['0', '4', '/', '0', '7', '/', '2', '0', '2', '5']) =
        some (mkJSDate (num4 '2' '0' '2' '5') (num2 '0' '4' - 1) (num2 '0' '7')) ∧
    tryFormats (String.mk ['0', '4', '-', '0', '7', '-', '2', '0', '2', '5']) =
        some (mkJSDate (num4 '2' '0' '2' '5') (num2 '0' '4' - 1) (num2 '0' '7')) :=
  ⟨by decide,
   (c7_month_first_wins (fun _ => none) none '0' '4' '0' '7' '2' '0' '2' '5').2 (by decide)⟩

/-- For any three match flags, the emitted status is MATCH exactly when all
three hold, and is always one of MATCH and DISCREPANCY. -/
theorem status_iff_of_flags (qb pb db : Bool) :
    ((if qb && pb && db then Status.MATCH else Status.DISCREPANCY) = Status.MATCH ↔
      (some qb = some true ∧ some pb = some true ∧ some db = some true)) ∧
    ((if qb && pb && db then Status.MATCH else Status.DISCREPANCY) = Status.MATCH ∨
      (if qb && pb && db then Status.MATCH else Status.DISCREPANCY) = Status.DISCREPANCY) := by
  cases qb <;> cases pb <;> cases db <;> simp

/-- A matched row's status is never NO MATCH. -/
theorem status_if_ne_noMatch (c : Bool) :
    (if c then Status.MATCH else Status.DISCREPANCY) ≠ Status.NO_MATCH := by
  cases c <;> simp

/-- The tie-break always selects some candidate from a non-empty pool. -/
theorem bestPOMatch_isSome_of_ne_nil (opts : ResolvedOptions)
    (pool : List PurchaseOrderRecord) (q p : JSNum) (h : pool ≠ []) :
    (bestPOMatch opts pool q p).isSome = true := by
  simp only [bestPOMatch]
  split_ifs with h0 h1 h2 h3
  · exact head?_isSome_of_ne_nil (List.length_pos.1 h1)
  · exact head?_isSome_of_ne_nil (List.length_pos.1 h2)
  · exact head?_isSome_of_ne_nil (List.length_pos.1 h3)
  · exact head?_isSome_of_ne_nil h
  · exact absurd (List.length_pos.2 h) h0

/-- C3: for a line item with a selected PO match, both emitted rows carry
quantity/price flags recomputed as strict absolute-difference-below-tolerance
comparisons against the SELECTED match's own parsed quantity and price; the
date flag compares the line item's delivery date (falling back to the
document invoice date, then to empty), both sides normalized, and is `true`
whenever `requireDateMatch` is off; the status is MATCH exactly when all
three flags hold, and otherwise DISCREPANCY. -/
theorem c3_classification (g : String → Option JSDate) (inv : InvoiceData)
    (matchingPOs : List PurchaseOrderRecord) (opts : ResolvedOptions) (item : LineItem)
    (m : PurchaseOrderRecord)
    (hm : bestPOMatch opts (poCandidatesOf matchingPOs item.productName opts)
      (invoiceQtyOf item) (invoicePriceOf item (invoiceQtyOf item)) = some m) :
    ∀ r ∈ processLineItem g inv matchingPOs opts item,
      r.qty_match = some (jsLt (jsAbs (jsSub (invoiceQtyOf item) m.PurchaseQty.parseVal))
        (some opts.quantityTolerance)) ∧
      r.price_match = some (jsLt (jsAbs (jsSub (invoicePriceOf item (invoiceQtyOf item))
        m.PurchasePrice.parseVal)) (some opts.priceTolerance)) ∧
      r.date_match = some (if opts.requireDateMatch then
          datesEqual
            (standardizeDate g (some (jsOrStr (item.deliveryDate.getD (""))
              (inv.invoiceDate.getD ("")))))
            (standardizeDate g (some m.DateRequired))
        else true) ∧
      (r.status = Status.MATCH ↔
        (r.qty_match = some true ∧ r.price_match = some true ∧ r.date_match = some true)) ∧
      (r.status = Status.MATCH ∨ r.status = Status.DISCREPANCY) := by
  intro r hr
  simp only [processLineItem] at hr
  rw [hm] at hr
  simp only [List.mem_cons, List.mem_singleton, List.not_mem_nil, or_false] at hr
  rcases hr with hr | hr <;> subst hr <;>
    exact ⟨rfl, rfl, rfl, (status_iff_of_flags _ _ _).1, (status_iff_of_flags _ _ _).2⟩

/-- C3 witness: a concrete one-record pool where the invoice values match,
and the emitted invoice row. -/
theorem c3_classification_witness :
    bestPOMatch (resolveOptions noOptions)
        (poCandidatesOf [⟨("PO1"), .num 10, .num 5, (""), ("WIDGET-A"), ("Widget A")⟩]
          (LineItem.mk ("Widget A") (some (.num 10)) (some (.num 5)) none none none).productName
          (resolveOptions noOptions))
        (invoiceQtyOf (LineItem.mk ("Widget A") (some (.num 10)) (some (.num 5)) none none none))
        (invoicePriceOf (LineItem.mk ("Widget A") (some (.num 10)) (some (.num 5)) none none none)
          (invoiceQtyOf
            (LineItem.mk ("Widget A") (some (.num 10)) (some (.num 5)) none none none))) =
      some ⟨("PO1"), .num 10, .num 5, (""), ("WIDGET-A"), ("Widget A")⟩ ∧
    (ReconciliationResult.mk Source.INVOICE ("PO1") ("Widget A") (some 10) (some 5) (some 50)
        ("") Status.MATCH (some true) (some true) (some true)).qty_match =
      some (jsLt (jsAbs (jsSub
        (invoiceQtyOf (LineItem.mk ("Widget A") (some (.num 10)) (some (.num 5)) none none none))
        (NumOrStr.parseVal (.num 10)))) (some (resolveOptions noOptions).quantityTolerance)) :=
  ⟨by decide,
   ((c3_classification (fun _ => none) (InvoiceData.mk ("PO1") none [])
       [⟨("PO1"), .num 10, .num 5, (""), ("WIDGET-A"), ("Widget A")⟩]
       (resolveOptions noOptions)
       (LineItem.mk ("Widget A") (some (.num 10)) (some (.num 5)) none none none)
       ⟨("PO1"), .num 10, .num 5, (""), ("WIDGET-A"), ("Widget A")⟩ (by decide))
     (ReconciliationResult.mk Source.INVOICE ("PO1") ("Widget A") (some 10) (some 5) (some 50)
       ("") Status.MATCH (some true) (some true) (some true)) (by decide)).1⟩

/-- C4: a matched line item emits exactly the pair invoice row then PO row —
the invoice row built from the invoice-derived quantity, price, normalized
date and computed total, the PO row from the matched record's own parsed
quantity, price and normalized date-required with its description formatted
as item code, hyphen, newline-collapsed description — both rows with
identical status and flags; an unmatched item emits exactly one INVOICE row
with status NO MATCH and no flags; and the result list is the in-order
concatenation of the per-line-item rows. -/
theorem c4_emission (g : String → Option JSDate) (inv : InvoiceData)
    (matchingPOs : List PurchaseOrderRecord) (opts : ResolvedOptions) (item : LineItem)
    (m : PurchaseOrderRecord) (poRecords : List PurchaseOrderRecord)
    (options : MatchingOptions) :
    (bestPOMatch opts (poCandidatesOf matchingPOs item.productName opts)
        (invoiceQtyOf item) (invoicePriceOf item (invoiceQtyOf item)) = some m →
      ∃ a b, processLineItem g inv matchingPOs opts item = [a, b] ∧
        a.source = Source.INVOICE ∧ b.source = Source.PO ∧
        a.status = b.status ∧ a.qty_match = b.qty_match ∧
        a.price_match = b.price_match ∧ a.date_match = b.date_match ∧
        a.poNum = inv.poNumber ∧ a.itemDesc = item.productName ∧
        a.qty = invoiceQtyOf item ∧
        a.unitPrice = invoicePriceOf item (invoiceQtyOf item) ∧
        a.totalPrice = jsMul a.qty a.unitPrice ∧
        a.date = standardizeDate g (some (jsOrStr (item.deliveryDate.getD (""))
          (inv.invoiceDate.getD ("")))) ∧
        b.poNum = m.PurchaseOrderID ∧
        b.itemDesc = m.PurchaseSupplierItem ++ " - " ++
          collapseNewlines m.PurchaseSupplierDescription ∧
        b.qty = m.PurchaseQty.parseVal ∧ b.unitPrice = m.PurchasePrice.parseVal ∧
        b.totalPrice = jsMul b.qty b.unitPrice ∧
        b.date = standardizeDate g (some m.DateRequired) ∧
        (a.status = Status.MATCH ∨ a.status = Status.DISCREPANCY)) ∧
    (bestPOMatch opts (poCandidatesOf matchingPOs item.productName opts)
        (invoiceQtyOf item) (invoicePriceOf item (invoiceQtyOf item)) = none →
      ∃ a, processLineItem g inv matchingPOs opts item = [a] ∧
        a.source = Source.INVOICE ∧ a.status = Status.NO_MATCH ∧
        a.qty_match = none ∧ a.price_match = none ∧ a.date_match = none) ∧
    (poRecords ≠ [] →
      reconcileInvoiceData g inv poRecords options =
        inv.lineItems.flatMap
          (processLineItem g inv
            (poRecords.filter fun po => po.PurchaseOrderID == inv.poNumber)
            (resolveOptions options))) := by
  refine ⟨fun hm => ?_, fun hm => ?_, fun hne => ?_⟩
  · simp only [processLineItem]
    rw [hm]
    exact ⟨_, _, rfl, rfl, rfl, rfl, rfl, rfl, rfl, rfl, rfl, rfl, rfl, rfl, rfl, rfl, rfl,
      rfl, rfl, rfl, rfl, (status_iff_of_flags _ _ _).2⟩
  · simp only [processLineItem]
    rw [hm]
    exact ⟨_, rfl, rfl, rfl, rfl, rfl, rfl⟩
  · simp only [reconcileInvoiceData]
    rw [if_neg (by simpa using hne)]

/-- C4 witness: the flat-map emission shape at a concrete input. -/
theorem c4_emission_witness :
    ([⟨("PO1"), .num 10, .num 5, (""), ("WIDGET-A"), ("Widget A")⟩] :
        List PurchaseOrderRecord) ≠ [] ∧
    reconcileInvoiceData (fun _ => none)
        (InvoiceData.mk ("PO1") none
          [LineItem.mk ("Widget A") (some (.num 10)) (some (.num 5)) none none none])
        [⟨("PO1"), .num 10, .num 5, (""), ("WIDGET-A"), ("Widget A")⟩] noOptions =
      (InvoiceData.mk ("PO1") none
          [LineItem.mk ("Widget A") (some (.num 10)) (some (.num 5)) none none none]).lineItems.flatMap
        (processLineItem (fun _ => none)
          (InvoiceData.mk ("PO1") none
            [LineItem.mk ("Widget A") (some (.num 10)) (some (.num 5)) none none none])
          ([⟨("PO1"), .num 10, .num 5, (""), ("WIDGET-A"), ("Widget A")⟩].filter
            fun po => po.PurchaseOrderID ==
              (InvoiceData.mk ("PO1") none
                [LineItem.mk ("Widget A") (some (.num 10)) (some (.num 5)) none none none]).poNumber)
          (resolveOptions noOptions)) :=
  ⟨by decide,
   (c4_emission (fun _ => none)
       (InvoiceData.mk ("PO1") none
         [LineItem.mk ("Widget A") (some (.num 10)) (some (.num 5)) none none none])
       [⟨("PO1"), .num 10, .num 5, (""), ("WIDGET-A"), ("Widget A")⟩]
       (resolveOptions noOptions)
       (LineItem.mk ("Widget A") (some (.num 10)) (some (.num 5)) none none none)
       ⟨("PO1"), .num 10, .num 5, (""), ("WIDGET-A"), ("Widget A")⟩
       [⟨("PO1"), .num 10, .num 5, (""), ("WIDGET-A"), ("Widget A")⟩] noOptions).2.2
     (by decide)⟩

/-- C10: with default options, a line item whose product name has at most
one keyword token and empty substring stages gets keyword threshold 0, so
every PO-number-filtered record qualifies, the candidate pool is the whole
filtered set, and (when that set is non-empty) the item is never emitted as
NO MATCH. -/
theorem c10_short_name_never_no_match (g : String → Option JSDate) (inv : InvoiceData)
    (matchingPOs : List PurchaseOrderRecord) (item : LineItem)
    (hlen : (itemKeywordsOf item.productName).length ≤ 1)
    (ha : itemCodeCandidates matchingPOs item.productName = [])
    (hb : descCandidates matchingPOs item.productName = [])
    (hne : matchingPOs ≠ []) :
    min (resolveOptions noOptions).minKeywordMatches
        (((itemKeywordsOf item.productName).length / 2 : ℕ) : ℚ) = 0 ∧
    keywordCandidates matchingPOs item.productName
        (resolveOptions noOptions).minKeywordMatches = matchingPOs ∧
    poCandidatesOf matchingPOs item.productName (resolveOptions noOptions) = matchingPOs ∧
    ∀ r ∈ processLineItem g inv matchingPOs (resolveOptions noOptions) item,
      r.status ≠ Status.NO_MATCH := by
  have hdiv : (itemKeywordsOf item.productName).length / 2 = 0 := Nat.div_eq_of_lt (by omega)
  have hmin : min (resolveOptions noOptions).minKeywordMatches
      (((itemKeywordsOf item.productName).length / 2 : ℕ) : ℚ) = 0 := by
    rw [hdiv]
    simp [resolveOptions, noOptions]
  have hkw : keywordCandidates matchingPOs item.productName
      (resolveOptions noOptions).minKeywordMatches = matchingPOs := by
    unfold keywordCandidates
    rw [List.filter_eq_self]
    intro po _
    simp only [hmin, decide_eq_true_eq]
    exact Nat.cast_nonneg _
  have hpool : poCandidatesOf matchingPOs item.productName (resolveOptions noOptions) =
      matchingPOs := by
    simp only [poCandidatesOf, ha, hb, hkw, List.isEmpty_nil, if_true]
    cases matchingPOs with
    | nil => exact absurd rfl hne
    | cons a t => simp
  refine ⟨hmin, hkw, hpool, fun r hr => ?_⟩
  have hsome : (bestPOMatch (resolveOptions noOptions)
      (poCandidatesOf matchingPOs item.productName (resolveOptions noOptions))
      (invoiceQtyOf item) (invoicePriceOf item (invoiceQtyOf item))).isSome = true := by
    rw [hpool]
    exact bestPOMatch_isSome_of_ne_nil _ _ _ _ hne
  obtain ⟨m, hm⟩ := Option.isSome_iff_exists.1 hsome
  simp only [processLineItem] at hr
  rw [hm] at hr
  simp only [List.mem_cons, List.mem_singleton, List.not_mem_nil, or_false] at hr
  rcases hr with hr | hr <;> subst hr <;> exact status_if_ne_noMatch _

/-- C10 witness: a one-token product name with no substring overlap against
a single PO record. -/
theorem c10_short_name_never_no_match_witness :
    (itemKeywordsOf (LineItem.mk ("Widget") (some (.num 1)) (some (.num 1))
        none none none).productName).length ≤ 1 ∧
    itemCodeCandidates [⟨("PO1"), .num 99, .num 99, (""), ("ZZZ"), ("QQQ")⟩]
        (LineItem.mk ("Widget") (some (.num 1)) (some (.num 1)) none none none).productName =
      [] ∧
    descCandidates [⟨("PO1"), .num 99, .num 99, (""), ("ZZZ"), ("QQQ")⟩]
        (LineItem.mk ("Widget") (some (.num 1)) (some (.num 1)) none none none).productName =
      [] ∧
    poCandidatesOf [⟨("PO1"), .num 99, .num 99, (""), ("ZZZ"), ("QQQ")⟩]
        (LineItem.mk ("Widget") (some (.num 1)) (some (.num 1)) none none none).productName
        (resolveOptions noOptions) =
      [⟨("PO1"), .num 99, .num 99, (""), ("ZZZ"), ("QQQ")⟩] :=
  ⟨by decide, by decide, by decide,
   (c10_short_name_never_no_match (fun _ => none) (InvoiceData.mk ("PO1") none [])
       [⟨("PO1"), .num 99, .num 99, (""), ("ZZZ"), ("QQQ")⟩]
       (LineItem.mk ("Widget") (some (.num 1)) (some (.num 1)) none none none)
       (by decide) (by decide) (by decide) (by decide)).2.2.1⟩

end ClaimTheorems

end NickRecon
